import Mathlib

/-!
# Verification of the ChatFlow real-time coordination layer

A shallow embedding of the WebSocket signaling hub, session registry,
presence tracker and call coordinator of the ChatFlow server
(`src/unnamed/part_005`, `registerRoutes` and its `wss.on("connection")`
handler), together with the HTTP mark-message-read route that triggers the
`message-read` broadcast.

Conventions of the embedding:
* JavaScript `Map` objects (`clients`) and the per-connection mutable
  variable `userId` become association lists; `Map.set` is modelled as
  erase-then-prepend, which is observationally equal to JS `Map.set` for
  `get`/`delete` (the code never iterates these maps).
* Database tables (`calls`, `call_participants`,
  `conversation_participants`, `messages`, `message_receipts`, the
  `status` column of `users`) become lists/association lists inside one
  `Hub` state record.
* Timestamps (`new Date()`/`getTime()`) are `Int` milliseconds supplied
  with each event; `Math.floor(x / 1000)` on a possibly negative
  difference is `Int.fdiv _ 1000` (floor division).
* `client.send` is I/O; a broadcast is recorded as an `OutMsg` holding the
  recipient identity list handed to `broadcastToUsers`, and actual
  delivery (only to registered identities whose socket is OPEN) is the
  separate function `deliveries`.
* Malformed JSON is a `none` message body (the `try`/`catch` swallows the
  parse error); the `switch` on `type` becomes an if-chain in source
  order, including the duplicate, unreachable second `case "typing"`.
-/

namespace ChatFlow

/-- Association-list lookup, modelling `Map.get` / SQL lookup by key. -/
def mapGet {α β : Type} [DecidableEq α] (m : List (α × β)) (k : α) : Option β :=
  (m.find? (fun p => p.1 = k)).map (·.2)

/-- Delete every binding of `k`, modelling `Map.delete`. -/
def mapDel {α β : Type} [DecidableEq α] (m : List (α × β)) (k : α) : List (α × β) :=
  m.filter (fun p => p.1 ≠ k)

/-- JS `Map.set`: erase-then-prepend; equal under `get`/`delete`. -/
def mapSet {α β : Type} [DecidableEq α] (m : List (α × β)) (k : α) (v : β) : List (α × β) :=
  (k, v) :: mapDel m k

/-- A row of the `calls` table (`shared/schema.ts`). Ids are modelled as `Nat`
(the DB generates opaque uuids). `ctype` is the `type` column (voice|video). -/
structure Call where
  id : Nat
  conversationId : Option String
  initiatorId : String
  ctype : String
  status : String
  startedAt : Option Int
  endedAt : Option Int
  duration : Option Int
deriving Repr, DecidableEq

/-- A row of `call_participants` with its media flags (defaults `false`). -/
structure CallParticipant where
  callId : Nat
  userId : String
  isMuted : Bool := false
  isVideoOff : Bool := false
  isScreenSharing : Bool := false
deriving Repr, DecidableEq

/-- The fields of a `messages` row that the mark-read route reads. -/
structure MessageRec where
  id : Nat
  conversationId : String
  senderId : String
deriving Repr, DecidableEq

/-- A `message_receipts` row: (messageId, userId) plus the `readAt` stamp. -/
structure Receipt where
  messageId : Nat
  userId : String
  readAt : Option Int
deriving Repr, DecidableEq

/-- The whole server state: the in-memory `clients` map, each live socket with its
`userId` closure variable (`bound`), which sockets are OPEN, and the durable
store tables the real-time layer touches. -/
structure Hub where
  clients : List (String × Nat)
  bound : List (Nat × String)
  openConns : List Nat
  convParts : List (String × String)
  calls : List Call
  callParts : List CallParticipant
  userStatus : List (String × String)
  typing : List ((String × String) × Bool)
  messages : List MessageRec
  receipts : List Receipt
  nextCallId : Nat
deriving Repr, DecidableEq

/-- An inbound message payload; absent JSON fields are `none`/defaults.
`ctype` is `payload.type` of `start-call`. -/
structure Payload where
  userId : Option String := none
  conversationId : Option String := none
  callId : Option Nat := none
  isTyping : Bool := false
  ctype : String := ""
  isMuted : Option Bool := none
  isVideoOff : Option Bool := none
  isScreenSharing : Option Bool := none
  targetUserId : Option String := none
  candidate : Option String := none
  offer : Option String := none
  answer : Option String := none
deriving Repr, DecidableEq

/-- The `{type, payload}` wire envelope. -/
structure Envelope where
  type : String
  payload : Payload
deriving Repr, DecidableEq

/-- An outbound payload; each broadcast site fills the fields it sends. -/
structure OutPayload where
  userId : Option String := none
  status : Option String := none
  conversationId : Option String := none
  isTyping : Option Bool := none
  callId : Option Nat := none
  callRec : Option Call := none
  initiator : Option String := none
  endedBy : Option String := none
  duration : Option Int := none
  fromUserId : Option String := none
  candidate : Option String := none
  offer : Option String := none
  answer : Option String := none
  messageId : Option Nat := none
  readAt : Option Int := none
  isMuted : Option Bool := none
  isVideoOff : Option Bool := none
  isScreenSharing : Option Bool := none
deriving Repr, DecidableEq

/-- One call to `broadcastToUsers(userIds, type, payload)`: the identity list
it was handed, the event name, and the payload. -/
structure OutMsg where
  recipients : List String
  etype : String
  payload : OutPayload
deriving Repr, DecidableEq

/-- Embedding of `storage.getParticipants(conversationId)`, projected to user ids. -/
def getParticipants (s : Hub) (cv : String) : List String :=
  (s.convParts.filter (fun p => p.1 = cv)).map (·.2)

/-- Embedding of `storage.isUserInConversation`. -/
def isUserInConversation (s : Hub) (cv : String) (u : String) : Bool :=
  (cv, u) ∈ s.convParts

/-- Embedding of `storage.getCall(id)`. -/
def getCall (s : Hub) (cid : Nat) : Option Call :=
  s.calls.find? (fun c => c.id = cid)

/-- Embedding of `storage.updateCall(id, data)`: update the matching row with `f`. -/
def updateCallStore (calls : List Call) (cid : Nat) (f : Call → Call) : List Call :=
  calls.map (fun c => if c.id = cid then f c else c)

/-- Embedding of `storage.getUserConversations(userId)`, projected to conversation ids. -/
def userConvIds (s : Hub) (u : String) : List String :=
  ((s.convParts.filter (fun p => p.2 = u)).map (·.1)).dedup

/-- The `contactIds` set built in the `user-online` and close handlers:
co-participants of every conversation the user is in, excluding the user. -/
def contactIds (s : Hub) (u : String) : List String :=
  ((s.convParts.filter
      (fun p => decide (p.1 ∈ userConvIds s u) && decide (p.2 ≠ u))).map (·.2)).dedup

/-- Embedding of `broadcastToConversation`: participants of the conversation minus the
optional `excludeUserId`, packaged as one `broadcastToUsers` call. -/
def broadcastToConversation (s : Hub) (cv : String) (ty : String)
    (pl : OutPayload) (exclude : Option String) : OutMsg :=
  { recipients := (getParticipants s cv).filter (fun uid => some uid ≠ exclude)
    etype := ty
    payload := pl }

/-- The connection a `client.send` to `uid` would reach: the registered
socket, provided `readyState === OPEN`. -/
def reachableConn (s : Hub) (uid : String) : Option Nat :=
  match mapGet s.clients uid with
  | some c => if c ∈ s.openConns then some c else none
  | none => none

/-- One delivered `client.send(JSON.stringify({type, payload}))`. -/
structure Delivery where
  conn : Nat
  etype : String
  payload : OutPayload
deriving Repr, DecidableEq

/-- The duration computed by the end-call handler:
`call.startedAt ? Math.floor((endedAt.getTime() - startedAt.getTime()) / 1000) : 0`.
`Int.fdiv` is floor division, as JS `Math.floor` of a real quotient. -/
def callDuration (startedAt : Option Int) (endedAt : Int) : Int :=
  match startedAt with
  | some st => (endedAt - st).fdiv 1000
  | none => 0

/-- The body of `broadcastToUsers`: for each recipient id, send iff it is in
`clients` and the socket is OPEN; silent otherwise. -/
def deliveries (s : Hub) (m : OutMsg) : List Delivery :=
  m.recipients.filterMap (fun uid =>
    (reachableConn s uid).map (fun c =>
      { conn := c, etype := m.etype, payload := m.payload }))

/-- The `ws.on("message")` switch, one if-branch per `case` in source order.
`conn` is the socket the message arrived on; `now` is the clock value a
`new Date()` inside this handler would observe. The second branch for type
`"typing"` mirrors the duplicate `case "typing"` label later in the switch. -/
def handleEnvelope (s : Hub) (conn : Nat) (env : Envelope) (now : Int) :
    Hub × List OutMsg :=
  if env.type = "user-online" then
    -- `userId = payload.userId` rebinds the closure variable first.
    let s :=
      { s with bound := match env.payload.userId with
                        | some u => mapSet s.bound conn u
                        | none => mapDel s.bound conn }
    match env.payload.userId with
    | some u =>
        let s := { s with clients := mapSet s.clients u conn
                          userStatus := mapSet s.userStatus u "online" }
        (s, [{ recipients := contactIds s u
               etype := "user-status-changed"
               payload := { userId := some u, status := some "online" } }])
    | none => (s, [])
  else if env.type = "typing" then
    match mapGet s.bound conn, env.payload.conversationId with
    | some u, some cv =>
        let s := { s with typing := mapSet s.typing (cv, u) env.payload.isTyping }
        (s, [broadcastToConversation s cv "typing-status"
              { conversationId := some cv, userId := some u
                isTyping := some env.payload.isTyping } (some u)])
    | _, _ => (s, [])
  else if env.type = "start-call" then
    match mapGet s.bound conn, env.payload.conversationId with
    | some u, some cv =>
        let call : Call :=
          { id := s.nextCallId, conversationId := some cv, initiatorId := u
            ctype := env.payload.ctype, status := "initiated"
            startedAt := none, endedAt := none, duration := none }
        let s := { s with calls := s.calls ++ [call], nextCallId := s.nextCallId + 1 }
        let s := { s with callParts := s.callParts ++ [({ callId := call.id, userId := u } : CallParticipant)] }
        (s, [broadcastToConversation s cv "incoming-call"
              { callRec := some call, initiator := some u } (some u)])
    | _, _ => (s, [])
  else if env.type = "accept-call" then
    match mapGet s.bound conn, env.payload.callId with
    | some u, some cid =>
        match getCall s cid with
        | some call =>
            let s := { s with callParts := s.callParts ++ [({ callId := call.id, userId := u } : CallParticipant)] }
            let s := { s with calls := (updateCallStore s.calls call.id
                        (fun c => { c with status := "active", startedAt := some now })) }
            match call.conversationId with
            | some cv =>
                (s, [broadcastToConversation s cv "call-accepted"
                      { callId := some call.id, userId := some u } none])
            | none => (s, [])
        | none => (s, [])
    | _, _ => (s, [])
  else if env.type = "decline-call" then
    match mapGet s.bound conn, env.payload.callId with
    | some u, some cid =>
        match getCall s cid with
        | some call =>
            let s := { s with calls := (updateCallStore s.calls call.id
                        (fun c => { c with status := "declined" })) }
            match call.conversationId with
            | some cv =>
                (s, [broadcastToConversation s cv "call-declined"
                      { callId := some call.id, userId := some u } none])
            | none => (s, [])
        | none => (s, [])
    | _, _ => (s, [])
  else if env.type = "end-call" then
    match mapGet s.bound conn, env.payload.callId with
    | some u, some cid =>
        match getCall s cid with
        | some call =>
            let endedAt := now
            let dur : Int := callDuration call.startedAt endedAt
            let s := { s with calls := (updateCallStore s.calls call.id
                        (fun c => { c with status := "ended", endedAt := some endedAt
                                           duration := some dur })) }
            match call.conversationId with
            | some cv =>
                (s, [broadcastToConversation s cv "call-ended"
                      { callId := some call.id, endedBy := some u
                        duration := some dur } none])
            | none => (s, [])
        | none => (s, [])
    | _, _ => (s, [])
  else if env.type = "toggle-mute" ∨ env.type = "toggle-video" ∨
          env.type = "toggle-screen-share" then
    match mapGet s.bound conn, env.payload.callId with
    | some u, some cid =>
        let mu := if env.type = "toggle-mute" then env.payload.isMuted else none
        let vo := if env.type = "toggle-video" then env.payload.isVideoOff else none
        let sh := if env.type = "toggle-screen-share" then env.payload.isScreenSharing else none
        -- drizzle `.set` skips `undefined` fields.
        let s := { s with callParts := (s.callParts.map (fun p =>
                    if p.callId = cid ∧ p.userId = u then
                      { p with isMuted := mu.getD p.isMuted
                               isVideoOff := vo.getD p.isVideoOff
                               isScreenSharing := sh.getD p.isScreenSharing }
                    else p)) }
        match getCall s cid with
        | some call =>
            match call.conversationId with
            | some cv =>
                (s, [broadcastToConversation s cv "participant-media-changed"
                      { callId := some cid
                        -- `{callId, userId, ...payload}`: the spread overrides.
                        userId := (env.payload.userId).orElse (fun _ => some u)
                        conversationId := env.payload.conversationId
                        isMuted := env.payload.isMuted
                        isVideoOff := env.payload.isVideoOff
                        isScreenSharing := env.payload.isScreenSharing } (some u)])
            | none => (s, [])
        | none => (s, [])
    | _, _ => (s, [])
  else if env.type = "typing" then
    -- duplicate `case "typing"` label: dead at run time, kept for fidelity.
    match mapGet s.bound conn, env.payload.conversationId with
    | some u, some cv =>
        let s := { s with typing := mapSet s.typing (cv, u) env.payload.isTyping }
        (s, [broadcastToConversation s cv "user-typing"
              { userId := some u, isTyping := some env.payload.isTyping } (some u)])
    | _, _ => (s, [])
  else if env.type = "ice-candidate" then
    match mapGet s.bound conn, env.payload.targetUserId, env.payload.candidate with
    | some u, some tgt, some cand =>
        (s, [{ recipients := [tgt], etype := "ice-candidate"
               payload := { fromUserId := some u, candidate := some cand } }])
    | _, _, _ => (s, [])
  else if env.type = "webrtc-offer" then
    match mapGet s.bound conn, env.payload.targetUserId, env.payload.offer with
    | some u, some tgt, some off =>
        (s, [{ recipients := [tgt], etype := "webrtc-offer"
               payload := { fromUserId := some u, offer := some off } }])
    | _, _, _ => (s, [])
  else if env.type = "webrtc-answer" then
    match mapGet s.bound conn, env.payload.targetUserId, env.payload.answer with
    | some u, some tgt, some ans =>
        (s, [{ recipients := [tgt], etype := "webrtc-answer"
               payload := { fromUserId := some u, answer := some ans } }])
    | _, _, _ => (s, [])
  else
    -- unknown `type`: no case matches, the switch falls through.
    (s, [])

/-- One `ws.on("message")` invocation on raw data: `none` models a body that
`JSON.parse` rejects — the `catch` logs and returns, leaving everything as is. -/
def processData (s : Hub) (conn : Nat) (data : Option Envelope) (now : Int) :
    Hub × List OutMsg :=
  match data with
  | none => (s, [])
  | some env => handleEnvelope s conn env now

/-- A new socket: OPEN, with its `userId` closure variable `null`. -/
def handleConnect (s : Hub) (conn : Nat) : Hub :=
  { s with openConns := conn :: s.openConns, bound := mapDel s.bound conn }

/-- The `ws.on("close")` handler. The socket leaves the OPEN set; if its
`userId` variable is bound, the `clients` entry of that identity is deleted
(whatever socket it currently holds), its durable status set to offline, and
`user-status-changed{offline}` broadcast to its contacts. -/
def handleClose (s : Hub) (conn : Nat) : Hub × List OutMsg :=
  let s0 := { s with openConns := s.openConns.filter (fun c => c ≠ conn) }
  match mapGet s0.bound conn with
  | some u =>
      let s1 := { s0 with clients := mapDel s0.clients u
                          userStatus := mapSet s0.userStatus u "offline" }
      (s1, [{ recipients := contactIds s1 u
              etype := "user-status-changed"
              payload := { userId := some u, status := some "offline" } }])
  | none => (s0, [])

/-- Environment events driving one hub. -/
inductive Ev where
  | connect (conn : Nat)
  | message (conn : Nat) (data : Option Envelope) (now : Int)
  | close (conn : Nat)
deriving Repr, DecidableEq

/-- One event step. -/
def stepEv (s : Hub) : Ev → Hub × List OutMsg
  | .connect c => (handleConnect s c, [])
  | .message c d t => processData s c d t
  | .close c => handleClose s c

/-- Run a sequence of events, concatenating the broadcasts. -/
def run (s : Hub) : List Ev → Hub × List OutMsg
  | [] => (s, [])
  | e :: rest =>
      let p := stepEv s e
      let q := run p.1 rest
      (q.1, p.2 ++ q.2)

/-- Embedding of `storage.markMessageRead`: update `readAt` if a receipt row exists and is
unread, otherwise insert a fresh read receipt. -/
def markMessageRead (rs : List Receipt) (mid : Nat) (u : String) (now : Int) :
    List Receipt :=
  match rs.find? (fun r => r.messageId = mid && r.userId = u) with
  | some _ =>
      rs.map (fun r =>
        if r.messageId = mid ∧ r.userId = u ∧ r.readAt = none then
          { r with readAt := some now }
        else r)
  | none => rs ++ [{ messageId := mid, userId := u, readAt := some now }]

/-- The `POST /api/messages/:id/read` route body after authentication:
404 on unknown message, 403 when the reader is not in the conversation,
200-no-op on own messages; otherwise persist the receipt and broadcast
`message-read` to the conversation (no `excludeUserId` argument is passed). -/
def markReadRoute (s : Hub) (u : String) (mid : Nat) (now : Int) :
    Hub × List OutMsg :=
  match s.messages.find? (fun m => m.id = mid) with
  | none => (s, [])
  | some msg =>
      if isUserInConversation s msg.conversationId u = false then (s, [])
      else if msg.senderId = u then (s, [])
      else
        let s := { s with receipts := markMessageRead s.receipts mid u now }
        (s, [broadcastToConversation s msg.conversationId "message-read"
              { messageId := some mid, conversationId := some msg.conversationId
                userId := some u, readAt := some now } none])

/-!
## Concrete scenario fixtures

A two-party conversation `cv` between identities `A` (socket 10) and `B`
(socket 11), both online, with one persisted message of `A`.
-/

/-- A freshly initiated voice call of `A` in conversation `cv`. -/
def baseCall : Call :=
  { id := 0, conversationId := some "cv", initiatorId := "A", ctype := "voice"
    status := "initiated", startedAt := none, endedAt := none, duration := none }

/-- Base fixture state. -/
def s0 : Hub :=
  { clients := [("A", 10), ("B", 11)]
    bound := [(10, "A"), (11, "B")]
    openConns := [10, 11]
    convParts := [("cv", "A"), ("cv", "B")]
    calls := []
    callParts := []
    userStatus := [("A", "online"), ("B", "online")]
    typing := []
    messages := [{ id := 1, conversationId := "cv", senderId := "A" }]
    receipts := []
    nextCallId := 0 }

/-- Fixture with the call already in the terminal status `ended`. -/
def sEnded : Hub :=
  { s0 with calls := [{ baseCall with status := "ended" }], nextCallId := 1 }

/-- Fixture with the call already declined. -/
def sDeclined : Hub :=
  { s0 with calls := [{ baseCall with status := "declined" }], nextCallId := 1 }

/-- Fixture with the call active since t = 1000 ms. -/
def sActive : Hub :=
  { s0 with calls := [{ baseCall with status := "active", startedAt := some 1000 }]
            nextCallId := 1 }

/-!
## Helper lemmas about the association-list operations and the call store
-/

theorem mapGet_mapSet_self {α β : Type} [DecidableEq α]
    (m : List (α × β)) (k : α) (v : β) : mapGet (mapSet m k v) k = some v := by
  simp [mapGet, mapSet, List.find?]

theorem mapGet_mapDel_self {α β : Type} [DecidableEq α]
    (m : List (α × β)) (k : α) : mapGet (mapDel m k) k = none := by
  induction m with
  | nil => rfl
  | cons p t ih =>
      by_cases h : p.1 = k
      · simp [mapDel, h]
        simpa [mapDel] using ih
      · simp [mapDel, mapGet, List.find?, h]

theorem find?_updateCallStore (l : List Call) (cid : Nat) (f : Call → Call)
    (hf : ∀ c, (f c).id = c.id) :
    (updateCallStore l cid f).find? (fun c => c.id = cid) =
      ((l.find? (fun c => c.id = cid)).map f) := by
  induction l with
  | nil => rfl
  | cons c t ih =>
      by_cases h : c.id = cid
      · simp [updateCallStore, List.find?, h, hf c]
      · simpa [updateCallStore, List.find?, h] using ih

theorem getCall_id {s : Hub} {cid : Nat} {call : Call}
    (h : getCall s cid = some call) : call.id = cid := by
  have := List.find?_some h
  simpa using this

/-!
## Claims
-/

/-- C1, counterexample: statuses are not monotone. In the fixture, `A` starts
a call (status `initiated`), `B` declines it (status `declined`), and then a
subsequent `accept-call` from `B` for the same callId is NOT a no-op: it
moves the status from `declined` back to `active`. -/
theorem C1_counterexample :
    ((getCall (run s0
        [Ev.message 10 (some { type := "start-call"
                               payload := { conversationId := some "cv", ctype := "voice" } }) 1000,
         Ev.message 11 (some { type := "decline-call"
                               payload := { callId := some 0 } }) 2000]).1
      0).map Call.status = some "declined") ∧
    ((getCall (run s0
        [Ev.message 10 (some { type := "start-call"
                               payload := { conversationId := some "cv", ctype := "voice" } }) 1000,
         Ev.message 11 (some { type := "decline-call"
                               payload := { callId := some 0 } }) 2000,
         Ev.message 11 (some { type := "accept-call"
                               payload := { callId := some 0 } }) 3000]).1
      0).map Call.status = some "active") := by decide

/-- C1, amended: the WebSocket call handlers never inspect the current
status. For any existing call, `accept-call` sets the status to `active` and
stamps `startedAt`, `decline-call` sets `declined`, and `end-call` sets
`ended`, regardless of the previous status; in particular, after a
`decline-call` has set a status to `declined`, a subsequent `accept-call`
for the same callId sets it to `active` (it is not a no-op), so the observed
status sequence need not be monotone. -/
theorem C1_amended_unconditional_transitions (s : Hub) (conn : Nat) (u : String)
    (cid : Nat) (call : Call) (now : Int)
    (hb : mapGet s.bound conn = some u)
    (hc : getCall s cid = some call) :
    (∃ c, getCall (handleEnvelope s conn
        { type := "accept-call", payload := { callId := some cid } } now).1 cid = some c ∧
        c.status = "active" ∧ c.startedAt = some now) ∧
    (∃ c, getCall (handleEnvelope s conn
        { type := "decline-call", payload := { callId := some cid } } now).1 cid = some c ∧
        c.status = "declined") ∧
    (∃ c, getCall (handleEnvelope s conn
        { type := "end-call", payload := { callId := some cid } } now).1 cid = some c ∧
        c.status = "ended") := by
  have hid : call.id = cid := getCall_id hc
  refine ⟨⟨{ call with status := "active", startedAt := some now }, ?_, rfl, rfl⟩,
          ⟨{ call with status := "declined" }, ?_, rfl⟩,
          ⟨{ call with status := "ended", endedAt := some now, duration := some (callDuration call.startedAt now) }, ?_, rfl⟩⟩ <;>
    · cases hcv : call.conversationId <;>
      · simp only [handleEnvelope, hb, hc, hid, hcv]
        simp only [getCall] at hc ⊢
        simp +decide [find?_updateCallStore, hc, hid, hcv]

/-- C1, witness for the amended theorem at the declined-call fixture. -/
theorem C1_amended_witness :
    (∃ c, getCall (handleEnvelope sDeclined 11
        { type := "accept-call", payload := { callId := some 0 } } 3000).1 0 = some c ∧
        c.status = "active" ∧ c.startedAt = some 3000) ∧
    (∃ c, getCall (handleEnvelope sDeclined 11
        { type := "decline-call", payload := { callId := some 0 } } 3000).1 0 = some c ∧
        c.status = "declined") ∧
    (∃ c, getCall (handleEnvelope sDeclined 11
        { type := "end-call", payload := { callId := some 0 } } 3000).1 0 = some c ∧
        c.status = "ended") :=
  C1_amended_unconditional_transitions sDeclined 11 "B" 0
    { baseCall with status := "declined" } 3000 (by decide) (by decide)

/-- C2, counterexample: declining a call whose status is already terminal
(`ended` in the fixture) is NOT a no-op — the stored status changes to
`declined` and a `call-declined` broadcast is emitted again. -/
theorem C2_counterexample :
    ((getCall (handleEnvelope sEnded 11
        { type := "decline-call", payload := { callId := some 0 } } 5000).1 0).map Call.status
      = some "declined") ∧
    ((handleEnvelope sEnded 11
        { type := "decline-call", payload := { callId := some 0 } } 5000).2.map OutMsg.etype
      = ["call-declined"]) := by decide

/-- C2, amended: the decline-call handler never inspects the current status.
For every existing call — in particular one already in a terminal status
(`ended`, `declined` or `missed`) — processing `decline-call` sets the stored
status to `declined` and, when the call is conversation-scoped, emits a
`call-declined` broadcast again. -/
theorem C2_amended_decline_not_idempotent (s : Hub) (conn : Nat) (u : String)
    (cid : Nat) (call : Call) (now : Int)
    (hb : mapGet s.bound conn = some u)
    (hc : getCall s cid = some call)
    (_hterm : call.status = "ended" ∨ call.status = "declined" ∨ call.status = "missed") :
    (∃ c, getCall (handleEnvelope s conn
        { type := "decline-call", payload := { callId := some cid } } now).1 cid = some c ∧
        c.status = "declined") ∧
    (∀ cv, call.conversationId = some cv →
      (handleEnvelope s conn
        { type := "decline-call", payload := { callId := some cid } } now).2.map OutMsg.etype
      = ["call-declined"]) := by
  have hid : call.id = cid := getCall_id hc
  constructor
  · refine ⟨{ call with status := "declined" }, ?_, rfl⟩
    cases hcv : call.conversationId <;>
    · simp only [handleEnvelope, hb, hc, hid, hcv]
      simp only [getCall] at hc ⊢
      simp +decide [find?_updateCallStore, hc, hid, hcv]
  · intro cv hcv
    simp +decide [handleEnvelope, hb, hc, hid, hcv, broadcastToConversation]

/-- C2, witness for the amended theorem at the ended-call fixture. -/
theorem C2_amended_witness :
    (∃ c, getCall (handleEnvelope sEnded 11
        { type := "decline-call", payload := { callId := some 0 } } 5000).1 0 = some c ∧
        c.status = "declined") ∧
    (∀ cv, ({ baseCall with status := "ended" } : Call).conversationId = some cv →
      (handleEnvelope sEnded 11
        { type := "decline-call", payload := { callId := some 0 } } 5000).2.map OutMsg.etype
      = ["call-declined"]) :=
  C2_amended_decline_not_idempotent sEnded 11 "B" 0
    { baseCall with status := "ended" } 5000 (by decide) (by decide) (by decide)

/-- C3, counterexample: the read-receipt broadcast does NOT exclude the
triggering identity. In the fixture, `B` marks the message of `A` as read,
and the `message-read` broadcast is addressed to both `A` and `B` — the
reader `B` is in the recipient set of its own read-receipt event. -/
theorem C3_counterexample :
    ((markReadRoute s0 "B" 1 7000).2.map OutMsg.recipients = [["A", "B"]]) ∧
    ((markReadRoute s0 "B" 1 7000).2.map OutMsg.etype = ["message-read"]) := by decide

/-- C3, amended: for typing events and media toggles the recipient set of
the resulting broadcast never contains the identity that triggered the
event; the `message-read` broadcast, however, is addressed to all
conversation participants with no exclusion, so it does contain the reader
(who is a participant). -/
theorem C3_amended_exclusion (s : Hub) (conn : Nat) (u : String) (pl : Payload) (now : Int)
    (hb : mapGet s.bound conn = some u) :
    (∀ m ∈ (handleEnvelope s conn { type := "typing", payload := pl } now).2,
       u ∉ m.recipients) ∧
    (∀ ty, (ty = "toggle-mute" ∨ ty = "toggle-video" ∨ ty = "toggle-screen-share") →
       ∀ m ∈ (handleEnvelope s conn { type := ty, payload := pl } now).2,
         u ∉ m.recipients) ∧
    (∀ mid msg, s.messages.find? (fun m => m.id = mid) = some msg →
       isUserInConversation s msg.conversationId u = true → msg.senderId ≠ u →
       ∀ m ∈ (markReadRoute s u mid now).2,
         m.recipients = getParticipants s msg.conversationId ∧ u ∈ m.recipients) := by
  refine ⟨?_, ?_, ?_⟩
  · intro m hm
    cases hcv : pl.conversationId with
    | none => simp +decide [handleEnvelope, hb, hcv] at hm
    | some cv =>
        simp +decide [handleEnvelope, hb, hcv, broadcastToConversation] at hm
        subst hm
        simp
  · intro ty hty m hm
    rcases hty with rfl | rfl | rfl <;>
    · simp +decide [handleEnvelope, hb] at hm
      repeat' split at hm
      all_goals simp_all [broadcastToConversation]
  · intro mid msg hfind hin hsender m hm
    simp [markReadRoute, hfind, hin, hsender, broadcastToConversation] at hm
    subst hm
    constructor
    · simp [getParticipants]
    · simp only [isUserInConversation, decide_eq_true_eq] at hin
      simp [getParticipants, List.mem_map, List.mem_filter]
      exact hin

/-- C3, witness: the amended exclusion facts at the base fixture, for the
typing event of `A`, a mute toggle of `A`, and the read receipt of `B`. -/
theorem C3_amended_witness :
    (∀ m ∈ (handleEnvelope s0 10
        { type := "typing"
          payload := { conversationId := some "cv", isTyping := true } } 100).2,
       "A" ∉ m.recipients) ∧
    (∀ m ∈ (handleEnvelope s0 10
        { type := "toggle-mute"
          payload := { callId := some 0, isMuted := some true } } 100).2,
       "A" ∉ m.recipients) ∧
    (∀ m ∈ (markReadRoute s0 "B" 1 7000).2,
       m.recipients = getParticipants s0 "cv" ∧ "B" ∈ m.recipients) := by
  have h := C3_amended_exclusion s0 10 "A"
    { conversationId := some "cv", isTyping := true } 100 (by decide)
  have h2 := C3_amended_exclusion s0 10 "A"
    { callId := some 0, isMuted := some true } 100 (by decide)
  have h3 := C3_amended_exclusion s0 11 "B" {} 7000 (by decide)
  exact ⟨h.1, h2.2.1 "toggle-mute" (Or.inl rfl),
         h3.2.2 1 { id := 1, conversationId := "cv", senderId := "A" }
           (by decide) (by decide) (by decide)⟩

theorem find?_append_of_none {α : Type} {p : α → Bool} (l1 l2 : List α)
    (h : ∀ a ∈ l1, p a = false) : (l1 ++ l2).find? p = l2.find? p := by
  induction l1 with
  | nil => rfl
  | cons a t ih =>
      simp only [List.cons_append, List.find?]
      rw [h a (by simp)]
      exact ih (fun x hx => h x (by simp [hx]))

theorem find?_calls_append_fresh (cs : List Call) (c0 : Call) (n : Nat)
    (hn : c0.id = n) (h : ∀ c ∈ cs, c.id ≠ n) :
    (cs ++ [c0]).find? (fun c => c.id = n) = some c0 := by
  rw [find?_append_of_none _ _ (fun a ha => by simp [h a ha])]
  simp [List.find?, hn]

/-- C4: when an existing call is ended by `end-call`, the stored record gets
status `ended`, `endedAt := now`, and `duration := callDuration`; if the call
had reached `active` (`startedAt` set, and stamped no later than `now`), the
duration is `floor((endedAt - startedAt)/1000)` whole seconds and is
nonnegative; if the call never started, the duration is `0`. -/
theorem C4_duration_invariant (s : Hub) (conn : Nat) (u : String)
    (cid : Nat) (call : Call) (now : Int)
    (hb : mapGet s.bound conn = some u)
    (hc : getCall s cid = some call)
    (hmono : ∀ st, call.startedAt = some st → st ≤ now) :
    getCall (handleEnvelope s conn
        { type := "end-call", payload := { callId := some cid } } now).1 cid
      = some { call with status := "ended", endedAt := some now, duration := some (callDuration call.startedAt now) } ∧
    (∀ st, call.startedAt = some st →
       callDuration call.startedAt now = (now - st).fdiv 1000 ∧
       0 ≤ callDuration call.startedAt now) ∧
    (call.startedAt = none → callDuration call.startedAt now = 0) := by
  have hid : call.id = cid := getCall_id hc
  refine ⟨?_, ?_, ?_⟩
  · cases hcv : call.conversationId <;>
    · simp only [handleEnvelope, hb, hc, hid, hcv]
      simp only [getCall] at hc ⊢
      simp +decide [find?_updateCallStore, hc, hid, hcv]
  · intro st hst
    refine ⟨by simp [callDuration, hst], ?_⟩
    have hle := hmono st hst
    simp only [callDuration, hst]
    exact Int.fdiv_nonneg (by omega) (by norm_num)
  · intro h0
    simp [callDuration, h0]

/-- C4, witness: `B` ends the active fixture call (started at t = 1000 ms)
at t = 5000 ms; the stored duration is 4 seconds. -/
theorem C4_duration_witness :
    getCall (handleEnvelope sActive 11
        { type := "end-call", payload := { callId := some 0 } } 5000).1 0
      = some { { baseCall with status := "active", startedAt := some 1000 } with
               status := "ended", endedAt := some 5000
               duration := some (callDuration (some (1000 : Int)) 5000) } ∧
    (∀ st, ({ baseCall with status := "active", startedAt := some 1000 } : Call).startedAt = some st →
       callDuration (some (1000 : Int)) 5000 = ((5000 : Int) - st).fdiv 1000 ∧
       0 ≤ callDuration (some (1000 : Int)) 5000) ∧
    (({ baseCall with status := "active", startedAt := some 1000 } : Call).startedAt = none →
       callDuration (some (1000 : Int)) 5000 = 0) :=
  C4_duration_invariant sActive 11 "B" 0
    { baseCall with status := "active", startedAt := some 1000 } 5000
    (by decide) (by decide)
    (by intro st hst; simp [baseCall] at hst; omega)

/-- C5: after a second connection registers with `user-online` for the same
identity, the clients map returns the new connection; a subsequent send to
that identity delivers to the new connection only (when it is OPEN), and in
no case to the old connection. -/
theorem C5_second_registration_wins (s : Hub) (c1 c2 : Nat) (u : String)
    (pl : Payload) (now : Int)
    (_hold : mapGet s.clients u = some c1)
    (hu : pl.userId = some u)
    (hne : c1 ≠ c2) :
    mapGet (handleEnvelope s c2 { type := "user-online", payload := pl } now).1.clients u
      = some c2 ∧
    (c2 ∈ s.openConns →
      ∀ ty opl, deliveries (handleEnvelope s c2 { type := "user-online", payload := pl } now).1
          { recipients := [u], etype := ty, payload := opl }
        = [{ conn := c2, etype := ty, payload := opl }]) ∧
    (∀ ty opl, ∀ d ∈ deliveries (handleEnvelope s c2 { type := "user-online", payload := pl } now).1
          { recipients := [u], etype := ty, payload := opl }, d.conn ≠ c1) := by
  refine ⟨?_, ?_, ?_⟩
  · simp +decide [handleEnvelope, hu, mapGet_mapSet_self]
  · intro hop ty opl
    simp +decide [handleEnvelope, hu, deliveries, reachableConn, mapGet_mapSet_self, hop]
  · intro ty opl d hd
    by_cases hop : c2 ∈ s.openConns <;>
      simp +decide [handleEnvelope, hu, deliveries, reachableConn,
        mapGet_mapSet_self, hop] at hd
    subst hd
    simp
    omega

/-- C5, witness: identity `A` (old socket 10) re-registers on socket 12. -/
theorem C5_second_registration_witness :
    mapGet (handleEnvelope s0 12
        { type := "user-online", payload := { userId := some "A" } } 50).1.clients "A"
      = some 12 ∧
    (12 ∈ s0.openConns →
      ∀ ty opl, deliveries (handleEnvelope s0 12
          { type := "user-online", payload := { userId := some "A" } } 50).1
          { recipients := ["A"], etype := ty, payload := opl }
        = [{ conn := 12, etype := ty, payload := opl }]) ∧
    (∀ ty opl, ∀ d ∈ deliveries (handleEnvelope s0 12
          { type := "user-online", payload := { userId := some "A" } } 50).1
          { recipients := ["A"], etype := ty, payload := opl }, d.conn ≠ 10) :=
  C5_second_registration_wins s0 10 12 "A" { userId := some "A" } 50
    (by decide) (by decide) (by decide)

/-- C6: a `start-call` from a bound identity with a conversationId creates a
Call with status `initiated`, adds the initiator as a CallParticipant, and
emits exactly one `incoming-call` broadcast carrying the Call and the
initiator identity, addressed to exactly the conversation participants other
than the initiator. -/
theorem C6_start_call (s : Hub) (conn : Nat) (u : String) (cv : String)
    (ct : String) (now : Int)
    (hb : mapGet s.bound conn = some u)
    (hfresh : ∀ c ∈ s.calls, c.id ≠ s.nextCallId) :
    getCall (handleEnvelope s conn
        { type := "start-call", payload := { conversationId := some cv, ctype := ct } } now).1
        s.nextCallId
      = some { id := s.nextCallId, conversationId := some cv, initiatorId := u, ctype := ct,
               status := "initiated", startedAt := none, endedAt := none, duration := none } ∧
    ({ callId := s.nextCallId, userId := u } : CallParticipant)
      ∈ (handleEnvelope s conn
        { type := "start-call", payload := { conversationId := some cv, ctype := ct } } now).1.callParts ∧
    (∃ m, (handleEnvelope s conn
        { type := "start-call", payload := { conversationId := some cv, ctype := ct } } now).2 = [m] ∧
      m.etype = "incoming-call" ∧
      m.payload.callRec = some { id := s.nextCallId, conversationId := some cv, initiatorId := u, ctype := ct, status := "initiated", startedAt := none, endedAt := none, duration := none } ∧
      m.payload.initiator = some u ∧
      ∀ x, x ∈ m.recipients ↔ (x ∈ getParticipants s cv ∧ x ≠ u)) := by
  refine ⟨?_, ?_, ?_⟩
  · simp +decide only [handleEnvelope, hb, getCall]
    exact find?_calls_append_fresh s.calls _ s.nextCallId rfl (fun c hcm => hfresh c hcm)
  · simp +decide [handleEnvelope, hb]
  · refine ⟨{ recipients := (getParticipants s cv).filter (fun x => some x ≠ some u), etype := "incoming-call", payload := { callRec := some { id := s.nextCallId, conversationId := some cv, initiatorId := u, ctype := ct, status := "initiated", startedAt := none, endedAt := none, duration := none }, initiator := some u } }, ?_, rfl, rfl, rfl, ?_⟩
    · simp +decide [handleEnvelope, hb, broadcastToConversation, getParticipants]
    · intro x
      simp [List.mem_filter]

/-- C6, witness: `A` starts a voice call in the fixture conversation. -/
theorem C6_start_call_witness :
    getCall (handleEnvelope s0 10
        { type := "start-call", payload := { conversationId := some "cv", ctype := "voice" } } 10).1 0
      = some { id := 0, conversationId := some "cv", initiatorId := "A", ctype := "voice",
               status := "initiated", startedAt := none, endedAt := none, duration := none } ∧
    ({ callId := 0, userId := "A" } : CallParticipant)
      ∈ (handleEnvelope s0 10
        { type := "start-call", payload := { conversationId := some "cv", ctype := "voice" } } 10).1.callParts ∧
    (∃ m, (handleEnvelope s0 10
        { type := "start-call", payload := { conversationId := some "cv", ctype := "voice" } } 10).2 = [m] ∧
      m.etype = "incoming-call" ∧
      m.payload.callRec = some { id := 0, conversationId := some "cv", initiatorId := "A", ctype := "voice", status := "initiated", startedAt := none, endedAt := none, duration := none } ∧
      m.payload.initiator = some "A" ∧
      ∀ x, x ∈ m.recipients ↔ (x ∈ getParticipants s0 "cv" ∧ x ≠ "A")) :=
  C6_start_call s0 10 "A" "cv" "voice" 10 (by decide) (by decide)

/-- C7: a send to a single identity (`broadcastToUsers` with a singleton
recipient list) delivers nothing when the identity has no entry in the
clients map or when its registered socket is not OPEN; the function raises
no error and touches no state. -/
theorem C7_silent_send (s : Hub) (u : String) (ty : String) (opl : OutPayload)
    (h : mapGet s.clients u = none ∨
         (∀ c, mapGet s.clients u = some c → c ∉ s.openConns)) :
    deliveries s { recipients := [u], etype := ty, payload := opl } = [] := by
  rcases h with h | h
  · simp [deliveries, reachableConn, h]
  · cases hm : mapGet s.clients u with
    | none => simp [deliveries, reachableConn, hm]
    | some c => simp [deliveries, reachableConn, hm, h c hm]

/-- C7, witness: identity `Z` is not registered in the fixture. -/
theorem C7_silent_send_witness :
    deliveries s0 { recipients := ["Z"], etype := "new-message", payload := {} } = [] :=
  C7_silent_send s0 "Z" "new-message" {} (Or.inl (by decide))

/-- The client→server event names the message switch handles. -/
def handledTypes : List String :=
  ["user-online", "typing", "start-call", "accept-call", "decline-call", "end-call",
   "toggle-mute", "toggle-video", "toggle-screen-share",
   "ice-candidate", "webrtc-offer", "webrtc-answer"]

/-- C8: a message whose type matches no case is ignored without error; a
body that does not parse as JSON is caught (modelled as `none`) and leaves
the state untouched with no broadcasts; in both cases the per-connection
message loop keeps processing subsequent events from the same state. -/
theorem C8_robust_dispatch (s : Hub) (conn : Nat) (now : Int) :
    (processData s conn none now = (s, [])) ∧
    (∀ env : Envelope, env.type ∉ handledTypes →
       processData s conn (some env) now = (s, [])) ∧
    (∀ rest : List Ev, run s (Ev.message conn none now :: rest) = run s rest) := by
  refine ⟨rfl, ?_, ?_⟩
  · intro env h
    simp [handledTypes] at h
    obtain ⟨h1, h2, h3, h4, h5, h6, h7, h8, h9, h10, h11, h12⟩ := h
    simp [processData, handleEnvelope, h1, h2, h3, h4, h5, h6, h7, h8, h9, h10, h11, h12]
  · intro rest
    simp [run, stepEv, processData]

/-- C8, witness: an unknown event type and a malformed body at the fixture. -/
theorem C8_robust_dispatch_witness :
    (processData s0 10 none 0 = (s0, [])) ∧
    (processData s0 10 (some { type := "mystery-event", payload := {} }) 0 = (s0, [])) ∧
    (run s0 [Ev.message 10 none 0,
             Ev.message 10 (some { type := "typing", payload := { conversationId := some "cv", isTyping := true } }) 5]
      = run s0 [Ev.message 10 (some { type := "typing", payload := { conversationId := some "cv", isTyping := true } }) 5]) := by
  have h := C8_robust_dispatch s0 10 0
  exact ⟨h.1, h.2.1 { type := "mystery-event", payload := {} } (by decide), h.2.2 _⟩

/-- The fixture after identity `A` reconnected on socket 12 (so the clients
map points at 12) while the stale socket 10 is still bound to `A`. -/
def sStale : Hub :=
  { s0 with clients := [("A", 12), ("B", 11)], openConns := [10, 11, 12] }

/-- C9: when a socket whose `userId` variable is bound closes — even a stale
socket superseded by a newer registration for the same identity — the close
handler still deletes the identity from the clients map, sets the durable
status to offline, and broadcasts `user-status-changed{offline}` to the
contacts of the identity; the still-open replacement socket survives in the
OPEN set but a send to the identity now delivers nothing. -/
theorem C9_stale_close_eviction (s : Hub) (conn c2 : Nat) (u : String)
    (hb : mapGet s.bound conn = some u)
    (_hcl : mapGet s.clients u = some c2)
    (hne : c2 ≠ conn)
    (hopen : c2 ∈ s.openConns) :
    mapGet (handleClose s conn).1.clients u = none ∧
    mapGet (handleClose s conn).1.userStatus u = some "offline" ∧
    c2 ∈ (handleClose s conn).1.openConns ∧
    (∀ ty opl, deliveries (handleClose s conn).1
        { recipients := [u], etype := ty, payload := opl } = []) ∧
    (handleClose s conn).2 = [{ recipients := contactIds s u, etype := "user-status-changed", payload := { userId := some u, status := some "offline" } }] := by
  refine ⟨?_, ?_, ?_, ?_, ?_⟩ <;>
    simp [handleClose, hb, mapGet_mapDel_self, mapGet_mapSet_self, List.mem_filter,
      hne, hopen, deliveries, reachableConn, contactIds, userConvIds]

/-- C9, witness: the stale socket 10 of `A` closes while socket 12 holds the
current registration. -/
theorem C9_stale_close_witness :
    mapGet (handleClose sStale 10).1.clients "A" = none ∧
    mapGet (handleClose sStale 10).1.userStatus "A" = some "offline" ∧
    12 ∈ (handleClose sStale 10).1.openConns ∧
    (∀ ty opl, deliveries (handleClose sStale 10).1
        { recipients := ["A"], etype := ty, payload := opl } = []) ∧
    (handleClose sStale 10).2 = [{ recipients := contactIds sStale "A", etype := "user-status-changed", payload := { userId := some "A", status := some "offline" } }] :=
  C9_stale_close_eviction sStale 10 12 "A" (by decide) (by decide) (by decide) (by decide)

/-- C10: the switch contains two case labels for type `typing`; only the
first is reachable, so a typing event from a bound identity with a
conversationId emits exactly one broadcast, of type `typing-status`, and no
inbound message ever makes the hub emit an event of type `user-typing`. -/
theorem C10_dead_typing_branch (s : Hub) (conn : Nat) (now : Int) :
    (∀ u pl cv, mapGet s.bound conn = some u → pl.conversationId = some cv →
       (handleEnvelope s conn { type := "typing", payload := pl } now).2.map OutMsg.etype
         = ["typing-status"]) ∧
    (∀ env : Envelope, ∀ m ∈ (handleEnvelope s conn env now).2,
       m.etype ≠ "user-typing") := by
  constructor
  · intro u pl cv hb hcv
    simp +decide [handleEnvelope, hb, hcv, broadcastToConversation]
  · intro env m hm
    by_cases h1 : env.type = "user-online"
    · simp +decide [handleEnvelope, h1] at hm
      repeat' split at hm
      all_goals simp_all +decide [broadcastToConversation]
    by_cases h2 : env.type = "typing"
    · simp +decide [handleEnvelope, h1, h2] at hm
      repeat' split at hm
      all_goals simp_all +decide [broadcastToConversation]
    by_cases h3 : env.type = "start-call"
    · simp +decide [handleEnvelope, h1, h2, h3] at hm
      repeat' split at hm
      all_goals simp_all +decide [broadcastToConversation]
    by_cases h4 : env.type = "accept-call"
    · simp +decide [handleEnvelope, h1, h2, h3, h4] at hm
      repeat' split at hm
      all_goals simp_all +decide [broadcastToConversation]
    by_cases h5 : env.type = "decline-call"
    · simp +decide [handleEnvelope, h1, h2, h3, h4, h5] at hm
      repeat' split at hm
      all_goals simp_all +decide [broadcastToConversation]
    by_cases h6 : env.type = "end-call"
    · simp +decide [handleEnvelope, h1, h2, h3, h4, h5, h6] at hm
      repeat' split at hm
      all_goals simp_all +decide [broadcastToConversation]
    by_cases h7 : env.type = "toggle-mute" ∨ env.type = "toggle-video" ∨
        env.type = "toggle-screen-share"
    · simp +decide [handleEnvelope, h1, h2, h3, h4, h5, h6, h7] at hm
      repeat' split at hm
      all_goals simp_all +decide [broadcastToConversation]
    by_cases h8 : env.type = "ice-candidate"
    · simp +decide [handleEnvelope, h1, h2, h3, h4, h5, h6, h7, h8] at hm
      repeat' split at hm
      all_goals simp_all +decide [broadcastToConversation]
    by_cases h9 : env.type = "webrtc-offer"
    · simp +decide [handleEnvelope, h1, h2, h3, h4, h5, h6, h7, h8, h9] at hm
      repeat' split at hm
      all_goals simp_all +decide [broadcastToConversation]
    by_cases h10 : env.type = "webrtc-answer"
    · simp +decide [handleEnvelope, h1, h2, h3, h4, h5, h6, h7, h8, h9, h10] at hm
      repeat' split at hm
      all_goals simp_all +decide [broadcastToConversation]
    · simp +decide [handleEnvelope, h1, h2, h3, h4, h5, h6, h7, h8, h9, h10] at hm

/-- C10, witness: a typing event of `A` at the fixture yields exactly one
`typing-status` broadcast and no `user-typing` event. -/
theorem C10_dead_typing_witness :
    ((handleEnvelope s0 10 { type := "typing", payload := { conversationId := some "cv", isTyping := true } } 5).2.map OutMsg.etype
      = ["typing-status"]) ∧
    (∀ m ∈ (handleEnvelope s0 10 { type := "typing", payload := { conversationId := some "cv", isTyping := true } } 5).2,
      m.etype ≠ "user-typing") := by
  have h := C10_dead_typing_branch s0 10 5
  exact ⟨h.1 "A" _ "cv" (by decide) rfl, h.2 _⟩

end ChatFlow
